import Mathlib

/-!
Shallow embedding of `scripts/generate_site.py`, a CSV → static HTML table
generator, together with proofs of the claims of the specification about it.

The script reads a CSV file into `rows : List (List String)`, aborts when the
file has zero rows, drops columns whose header cell is empty or whitespace-only
(aborting when none remains), remaps every data row to the kept column indices
(padding missing cells with the empty string), HTML-escapes every value, splices
the table and a UTC timestamp into a fixed HTML template, and writes the result.

The generation timestamp and the parsed CSV rows are the only inputs of the
pure part of the program, so the embedding passes them as parameters.
-/

/-- Codepoints of the characters stripped by the Python method `str.strip()`:
the full Unicode whitespace set (ASCII `\t`, `\n`, `\x0b`, `\x0c`, `\r`,
space, the separators `\x1c`–`\x1f`, NEL `\x85`, NBSP `\xa0`, Ogham space
U+1680, the U+2000–U+200A spaces, line and paragraph separators U+2028 and
U+2029, narrow NBSP U+202F, medium mathematical space U+205F, and ideographic
space U+3000); exactly the codepoints `c` with `chr(c).strip() == ""`. -/
def pySpaceCodes : List Nat :=
  [0x09, 0x0a, 0x0b, 0x0c, 0x0d, 0x1c, 0x1d, 0x1e, 0x1f, 0x20, 0x85, 0xa0,
   0x1680, 0x2000, 0x2001, 0x2002, 0x2003, 0x2004, 0x2005, 0x2006, 0x2007,
   0x2008, 0x2009, 0x200a, 0x2028, 0x2029, 0x202f, 0x205f, 0x3000]

/-- A character is whitespace for `str.strip()`. -/
def isPySpace (c : Char) : Bool :=
  pySpaceCodes.contains c.toNat

/-- The Python expression `s.strip()`: remove leading and trailing whitespace. -/
def pyStrip (s : String) : String :=
  ⟨((s.data.dropWhile isPySpace).reverse.dropWhile isPySpace).reverse⟩

/-- The column-keeping condition of line 24, `h and h.strip() != ""`:
`h` is truthy (non-empty) and its stripped form is non-empty. -/
def keepCond (h : String) : Bool :=
  (!(h == "")) && (!(pyStrip h == ""))

/-- Recursive rendering of `[i for i, h in enumerate(headers) if h and
h.strip() != ""]` (line 24): `n` is the index carried by `enumerate`. -/
def keepIndicesFrom : Nat → List String → List Nat
  | _, [] => []
  | n, h :: t =>
      if keepCond h then n :: keepIndicesFrom (n + 1) t
      else keepIndicesFrom (n + 1) t

/-- `keep_indices` of line 24, starting `enumerate` at 0. -/
def keep_indices (headers : List String) : List Nat :=
  keepIndicesFrom 0 headers

/-- `filtered_headers = [headers[i] for i in keep_indices]` (line 28).
`headers[i]` is rendered as `getD i ""`; every produced index is in range,
so the default is never consulted. -/
def filtered_headers (headers : List String) : List String :=
  (keep_indices headers).map (fun i => headers.getD i "")

/-- `row_for_indices` (lines 31–33): `[row[i] if i < len(row) else "" for i in
keep_indices]`, with the kept indices passed explicitly. -/
def row_for_indices (keep : List Nat) (row : List String) : List String :=
  keep.map (fun i => if i < row.length then row.getD i "" else "")

/-- `filtered_data_rows = [row_for_indices(r) for r in data_rows]` (line 34). -/
def filtered_data_rows (headers : List String) (dataRows : List (List String)) :
    List (List String) :=
  dataRows.map (row_for_indices (keep_indices headers))

/-- Per-character rendering of the Python call `html.escape(s, quote=True)`.
`html.escape` chains `str.replace` for `&`, `<`, `>`, `"`, `'` in that order;
since the `&` pass comes first and no replacement output contains a character
replaced by a later pass, the chain acts independently on each character of the
original string, which is what this map expresses. -/
def escapeChar (c : Char) : List Char :=
  if c = '&' then "&amp;".data
  else if c = '<' then "&lt;".data
  else if c = '>' then "&gt;".data
  else if c = '"' then "&quot;".data
  else if c = '\'' then "&#x27;".data
  else [c]

/-- `html.escape` on the character list of a string. -/
def escData : List Char → List Char
  | [] => []
  | c :: cs => escapeChar c ++ escData cs

/-- `html.escape(s, quote=True)` as used on every header and cell value. -/
def escape (s : String) : String :=
  ⟨escData s.data⟩

/-- `td` (lines 38–39): `f"<td>{html.escape(cell)}</td>"`. -/
def td (cell : String) : String :=
  "<td>" ++ escape cell ++ "</td>"

/-- The header cell of line 41: `f"<th>{html.escape(h)}</th>"`. -/
def thTag (h : String) : String :=
  "<th>" ++ escape h ++ "</th>"

/-- The Python expression `"".join(...)`. -/
def concatStrs : List String → String
  | [] => ""
  | s :: ss => s ++ concatStrs ss

/-- The Python expression `sep.join(...)`. -/
def joinSep (sep : String) : List String → String
  | [] => ""
  | [s] => s
  | s :: t :: ts => s ++ sep ++ joinSep sep (t :: ts)

/-- `thead` (line 41): `"<tr>" + "".join(th cells) + "</tr>"`. -/
def theadStr (headers : List String) : String :=
  "<tr>" ++ concatStrs ((filtered_headers headers).map thTag) ++ "</tr>"

/-- One body row of line 42: `"<tr>" + "".join(td(c) for c in r) + "</tr>"`. -/
def trRow (r : List String) : String :=
  "<tr>" ++ concatStrs (r.map td) ++ "</tr>"

/-- `tbody` (line 42): rows joined with a newline. -/
def tbodyStr (headers : List String) (dataRows : List (List String)) : String :=
  joinSep "\n" ((filtered_data_rows headers dataRows).map trRow)
def pagePart0head : String :=
  "<!doctype html>\n<html lang=\"en\">\n<head>\n  <meta charset=\"utf-8\" />\n  <meta name=\"viewport\" content=\"width=device-width,initial-scale=1\" />\n  <meta name=\"theme-color\" content=\"#121212\" />\n  <link rel=\"preconnect\" href=\"https://fonts.googleapis.com\">\n  <link rel=\"preconnect\" href=\"https://fonts.gstatic.com\" crossorigin>\n  <link href=\"https://fonts.googleapis.com/css2?family=Roboto:wght@300;400;500;700&display=swap\" rel=\"stylesheet\">\n  <title>Sheet Table</title>\n  <style>\n    :root \x7b\n      /* Material-inspired dark theme (accessible contrast) */\n      --background-color: #121212; /* Material dark background */\n      --surface: #1E1E1E; /* elevated surface */\n      --muted: #90A4AE; /* secondary text / muted */\n      --text-color: #ECEFF1; /* primary text */\n      --primary: #1E88E5; /* Material Blue 600 */\n      --primary-foreground: #FFFFFF;\n      --border: rgba(255,255,255,0.08);\n      --focus-ring: rgba(30,136,229,0.22);\n      --radius: 8px;\n      --max-width: 1200px;\n    \x7d\n\n    html, body \x7b\n      height: 100%;\n      background-color: var(--background-color);\n      color: var(--text-color);\n      font-family: \"Roboto\", system-ui, -apple-system, \"Segoe UI\", \"Helvetica Neue\", Arial;\n      margin: 0;\n      padding: 20px;\n      -webkit-font-smoothing: antialiased;\n      -moz-osx-font-smoothing: grayscale;\n    \x7d\n\n    .container \x7b\n      max-width: var(--max-width);\n      margin: 0 auto;\n      display: flex;\n      flex-direction: column;\n      gap: 12px;\n    \x7d\n\n    h1 \x7b\n      font-size: 1.6rem;\n      margin: 0;\n      font-weight: 500;\n      color: var(--text-color);\n    \x7d\n\n    .meta \x7b\n      margin: 0;\n      color: var(--muted);\n      font-size: 0.9rem;\n    \x7d\n\n    .controls \x7b\n      display: flex;\n      flex-direction: column;\n      gap: 8px;\n    \x7d\n\n    input[type=\"search\"] \x7b\n      width: min(900px, 100%);\n      padding: 10px 12px;\n      font-size: 1rem;\n      border-radius: var(--radius);\n      border: 1px solid var(--border);\n      background: linear-gradient(180deg, rgba(255,255,255,0.02), rgba(255,255,255,0.01));\n      color: var(--text-color);\n      outline: none;\n      transition: box-shadow 120ms ease, border-color 120ms ease;\n      box-shadow: none;\n    \x7d\n\n    input[type=\"search\"]::placeholder \x7b\n      color: rgba(236,239,241,0.6);\n    \x7d\n\n    input[type=\"search\"]:focus \x7b\n      box-shadow: 0 0 0 6px var(--focus-ring);\n      border-color: var(--primary);\n    \x7d\n\n    table \x7b\n      border-collapse: collapse;\n      width: 100%;\n      background: transparent;\n      margin-top: 8px;\n      overflow: auto;\n      border-radius: 6px;\n    \x7d\n\n    th, td \x7b\n      border: 1px solid var(--border);\n      padding: 10px 12px;\n      vertical-align: top;\n      text-align: left;\n      font-size: 0.95rem;\n    \x7d\n\n    thead th \x7b\n      position: sticky;\n      top: 0;\n      background: linear-gradient(180deg, rgba(255,255,255,0.03), rgba(255,255,255,0.01));\n      backdrop-filter: blur(4px);\n      z-index: 2;\n      font-weight: 500;\n    \x7d\n\n    tbody tr:nth-child(even) td \x7b\n      background: rgba(255,255,255,0.02);\n    \x7d\n\n    tbody tr:hover td \x7b\n      background: rgba(30,136,229,0.04);\n    \x7d\n\n    /* Make table cells wrap, preserving readability */\n    td \x7b\n      white-space: pre-wrap;\n      word-break: break-word;\n    \x7d\n\n    /* Accessible focus for rows (keyboard navigation) */\n    tr[tabindex=\"0\"]:focus \x7b\n      outline: none;\n      box-shadow: 0 0 0 6px var(--focus-ring);\n    \x7d\n\n    .sr-only \x7b\n      position: absolute;\n      width: 1px;\n      height: 1px;\n      padding: 0;\n      margin: -1px;\n      overflow: hidden;\n      clip: rect(0,0,0,0);\n      white-space: nowrap;\n      border: 0;\n    \x7d\n\n    @media (prefers-reduced-motion: reduce) \x7b\n      * \x7b\n        transition: none !important;\n      \x7d\n    \x7d\n  </style>\n</head>\n<body>\n  <div class=\"container\" role=\"main\">\n    <h1>Google Sheet (Searchable)</h1>\n    <p class=\"meta\">"

def pagePart0 : String := pagePart0head ++ "Last updated (UTC): "

def pagePart1 : String :=
  "</p>\n\n    <div class=\"controls\">\n      <label for=\"q\" class=\"sr-only\">Search table</label>\n      <input id=\"q\" aria-label=\"Search table\" type=\"search\" placeholder=\"Type to searchâ€¦\" autocomplete=\"off\" />\n    </div>\n\n    <div style=\"overflow:auto;\">\n      <table id=\"tbl\" role=\"table\" aria-label=\"Sheet data\">\n        <thead>"

def pagePart2 : String :=
  "</thead>\n        <tbody>"

def pagePart3 : String :=
  "</tbody>\n      </table>\n    </div>\n  </div>\n\n<script>\n  (function() \x7b\n    const q = document.getElementById(\x27q\x27);\n    const tbody = document.querySelector(\x27#tbl tbody\x27);\n    const rows = Array.from(tbody.querySelectorAll(\x27tr\x27));\n\n    // Allow keyboard focusing of rows for accessibility\n    rows.forEach(r => r.setAttribute(\x27tabindex\x27, \x270\x27));\n\n    q.addEventListener(\x27input\x27, () => \x7b\n      const needle = q.value.trim().toLowerCase();\n      for (const tr of rows) \x7b\n        const hay = tr.innerText.toLowerCase();\n        tr.style.display = hay.includes(needle) ? \x27\x27 : \x27none\x27;\n        tr.setAttribute(\x27aria-hidden\x27, hay.includes(needle) ? \x27false\x27 : \x27true\x27);\n      \x7d\n    \x7d);\n  \x7d)();\n</script>\n</body>\n</html>\n"

/-- The full page (lines 44–231): the f-string template with `updated`,
`thead`, `tbody` spliced in.  The static parts are the literal text of the template; `pagePart0` ends with the visible timestamp marker. -/
def page (headers : List String) (dataRows : List (List String))
    (updated : String) : String :=
  pagePart0 ++ updated ++
    (pagePart1 ++ theadStr headers ++ pagePart2 ++
      tbodyStr headers dataRows ++ pagePart3)

/-- `main` after the CSV is read (lines 17–26 and 232): empty CSV and
all-blank header each raise `SystemExit` with the given message (a non-zero
exit with the message on stderr); otherwise the page is produced. -/
def generate (rows : List (List String)) (updated : String) :
    Except String String :=
  match rows with
  | [] => Except.error "CSV is empty"
  | headers :: dataRows =>
      if keep_indices headers = [] then
        Except.error "No non-empty header columns found in CSV"
      else Except.ok (page headers dataRows updated)

/-- Filesystem effects of one run of `main`. -/
inductive FsEffect where
  | mkdirParent : FsEffect
  | write : String → FsEffect
  deriving DecidableEq

/-- The ordered filesystem effects of `main` (lines 8–232): the parent directory of the output
file is created (line 11) before the CSV is read; the output file
is written (line 232) only when generation succeeds. -/
def mainEffects (rows : List (List String)) (updated : String) :
    List FsEffect :=
  FsEffect.mkdirParent ::
    (match generate rows updated with
     | Except.ok p => [FsEffect.write p]
     | Except.error _ => [])

/-- Split a character list at every occurrence of `sep` (Python `str.split`). -/
def splitOnChar (sep : Char) : List Char → List (List Char)
  | [] => [[]]
  | c :: cs =>
      let r := splitOnChar sep cs
      if c = sep then [] :: r
      else (c :: r.headD []) :: r.tail

/-- Models the Python stdlib `csv.reader` (line 15) on inputs containing no quote
characters and no carriage returns: records are split on newlines, fields on
commas. -/
def parseSimpleCsv (s : String) : List (List String) :=
  (splitOnChar '\n' s.data).map
    (fun line => (splitOnChar ',' line).map (fun cs => ⟨cs⟩))

/-- `p` is an initial segment of `l`. -/
def leadsWith : List Char → List Char → Bool
  | [], _ => true
  | _ :: _, [] => false
  | p :: ps, c :: cs => p = c && leadsWith ps cs

/-- Every ampersand in the list begins one of the five entities produced by
`html.escape`: `&amp;` `&lt;` `&gt;` `&quot;` `&#x27;`. -/
def ampOk : List Char → Bool
  | [] => true
  | c :: rest =>
      (if c = '&' then
        leadsWith "amp;".data rest || leadsWith "lt;".data rest ||
        leadsWith "gt;".data rest || leadsWith "quot;".data rest ||
        leadsWith "#x27;".data rest
       else true) && ampOk rest

example : filtered_headers ["Name", " ", "Age"] = ["Name", "Age"] := by decide
example : escape "a<b&c" = "a&lt;b&amp;c" := by decide

theorem data_append (a b : String) : (a ++ b).data = a.data ++ b.data := by
  cases a; cases b; rfl

theorem escape_data (s : String) : (escape s).data = escData s.data := rfl

theorem escapeChar_count (d c : Char)
    (hc : c = '<' ∨ c = '>' ∨ c = '"' ∨ c = '\'') :
    (escapeChar d).count c = 0 := by
  unfold escapeChar
  split
  · rcases hc with h | h | h | h <;> subst h <;> decide
  · split
    · rcases hc with h | h | h | h <;> subst h <;> decide
    · split
      · rcases hc with h | h | h | h <;> subst h <;> decide
      · split
        · rcases hc with h | h | h | h <;> subst h <;> decide
        · split
          · rcases hc with h | h | h | h <;> subst h <;> decide
          · rename_i h1 h2 h3 h4 h5
            rcases hc with h | h | h | h <;> subst h <;>
              simp_all [List.count_cons, List.count_nil]

theorem escData_count (c : Char)
    (hc : c = '<' ∨ c = '>' ∨ c = '"' ∨ c = '\'') :
    ∀ l : List Char, (escData l).count c = 0 := by
  intro l
  induction l with
  | nil => rfl
  | cons d rest ih =>
      rw [escData, List.count_append, escapeChar_count d c hc, ih]

theorem ampOk_escapeChar (d : Char) (l : List Char) (h : ampOk l = true) :
    ampOk (escapeChar d ++ l) = true := by
  unfold escapeChar
  split
  · simp [ampOk, leadsWith, h]
  · split
    · simp [ampOk, leadsWith, h]
    · split
      · simp [ampOk, leadsWith, h]
      · split
        · simp [ampOk, leadsWith, h]
        · split
          · simp [ampOk, leadsWith, h]
          · rename_i h1 h2 h3 h4 h5
            simp [ampOk, h1, h]

theorem ampOk_escData (l : List Char) : ampOk (escData l) = true := by
  induction l with
  | nil => rfl
  | cons d rest ih => exact ampOk_escapeChar d (escData rest) ih

/-- Claim C2: every header and cell value is HTML-escaped before being
embedded: the escaped text placed inside a `<th>` or `<td>` element contains
no raw `<`, `>`, `"` or `'` character, and every `&` it contains starts one of
the five escape entities, so CSV content cannot inject markup. -/
theorem claim_c2 (s : String) :
    (escape s).data.count '<' = 0 ∧
    (escape s).data.count '>' = 0 ∧
    (escape s).data.count '"' = 0 ∧
    (escape s).data.count '\'' = 0 ∧
    ampOk (escape s).data = true ∧
    td s = "<td>" ++ escape s ++ "</td>" ∧
    thTag s = "<th>" ++ escape s ++ "</th>" := by
  refine ⟨?_, ?_, ?_, ?_, ?_, rfl, rfl⟩
  · exact escData_count '<' (by simp) s.data
  · exact escData_count '>' (by simp) s.data
  · exact escData_count '"' (by simp) s.data
  · exact escData_count '\'' (by simp) s.data
  · exact ampOk_escData s.data

theorem concatStrs_count (c : Char) (n : Nat) :
    ∀ L : List String, (∀ s ∈ L, s.data.count c = n) →
      (concatStrs L).data.count c = n * L.length := by
  intro L
  induction L with
  | nil => intro _; rfl
  | cons s ss ih =>
      intro h
      rw [concatStrs, data_append, List.count_append, h s (by simp),
        ih (fun t ht => h t (by simp [ht]))]
      simp [Nat.mul_succ, Nat.add_comm]

theorem joinSep_count (c : Char) (sep : String) (hsep : sep.data.count c = 0)
    (n : Nat) :
    ∀ L : List String, (∀ s ∈ L, s.data.count c = n) →
      (joinSep sep L).data.count c = n * L.length := by
  intro L
  induction L with
  | nil => intro _; rfl
  | cons s ss ih =>
      intro h
      match ss, ih with
      | [], _ => simpa using h s (by simp)
      | t :: ts, ih =>
          rw [joinSep, data_append, data_append, List.count_append,
            List.count_append, hsep, h s (by simp),
            ih (fun u hu => h u (by simp [hu]))]
          simp only [List.length_cons]
          ring

theorem thTag_count_lt (h : String) : (thTag h).data.count '<' = 2 := by
  rw [thTag, data_append, data_append, List.count_append, List.count_append,
    escape_data, escData_count '<' (by simp) h.data]
  rfl

theorem td_count_lt (cell : String) : (td cell).data.count '<' = 2 := by
  rw [td, data_append, data_append, List.count_append, List.count_append,
    escape_data, escData_count '<' (by simp) cell.data]
  rfl

theorem trRow_count_lt (r : List String) :
    (trRow r).data.count '<' = 2 * r.length + 2 := by
  rw [trRow, data_append, data_append, List.count_append, List.count_append,
    concatStrs_count '<' 2 (r.map td)
      (by intro s hs; obtain ⟨cell, _, rfl⟩ := List.mem_map.mp hs
          exact td_count_lt cell)]
  have h1 : List.count '<' ['<', 't', 'r', '>'] = 1 := by decide
  have h2 : List.count '<' ['<', '/', 't', 'r', '>'] = 1 := by decide
  rw [h1, h2, List.length_map]
  ring

theorem getD_append_cons (pre : List String) (x : String) (rest : List String) :
    (pre ++ x :: rest).getD pre.length "" = x := by
  induction pre with
  | nil => rfl
  | cons p ps ih => simpa [List.getD_cons_succ] using ih

theorem keepIndicesFrom_map_getD :
    ∀ (t pre : List String),
      (keepIndicesFrom pre.length t).map (fun i => (pre ++ t).getD i "") =
        t.filter (fun h => keepCond h) := by
  intro t
  induction t with
  | nil => intro pre; rfl
  | cons h rest ih =>
      intro pre
      have e1 : pre.length + 1 = (pre ++ [h]).length := by simp
      have e2 : pre ++ h :: rest = (pre ++ [h]) ++ rest := by simp
      by_cases hk : keepCond h = true
      · simp only [keepIndicesFrom, if_pos hk, List.map_cons, List.filter_cons,
          hk, if_true]
        rw [getD_append_cons pre h rest, e2, e1]
        exact congrArg (h :: ·) (ih (pre ++ [h]))
      · have hk2 : keepCond h = false := by
          cases hkc : keepCond h
          · rfl
          · exact absurd hkc hk
        simp only [keepIndicesFrom, hk2, Bool.false_eq_true, if_false,
          List.filter_cons]
        rw [e2, e1]
        exact ih (pre ++ [h])

theorem filtered_headers_eq_filter (headers : List String) :
    filtered_headers headers = headers.filter (fun h => keepCond h) := by
  have h := keepIndicesFrom_map_getD headers []
  simpa [filtered_headers, keep_indices] using h

theorem keep_indices_length (headers : List String) :
    (keep_indices headers).length =
      (headers.filter (fun h => keepCond h)).length := by
  have h := congrArg List.length (filtered_headers_eq_filter headers)
  simpa [filtered_headers] using h

theorem theadStr_count_lt (headers : List String) :
    (theadStr headers).data.count '<' =
      2 * (headers.filter (fun h => keepCond h)).length + 2 := by
  rw [theadStr, data_append, data_append, List.count_append, List.count_append,
    concatStrs_count '<' 2 ((filtered_headers headers).map thTag)
      (by intro s hs
          obtain ⟨hh, _, rfl⟩ := List.mem_map.mp hs
          exact thTag_count_lt hh)]
  have h1 : List.count '<' ['<', 't', 'r', '>'] = 1 := by decide
  have h2 : List.count '<' ['<', '/', 't', 'r', '>'] = 1 := by decide
  rw [h1, h2, List.length_map]
  have h3 := congrArg List.length (filtered_headers_eq_filter headers)
  rw [h3]
  omega

theorem tbodyStr_count_lt (headers : List String)
    (dataRows : List (List String)) :
    (tbodyStr headers dataRows).data.count '<' =
      dataRows.length *
        (2 * (headers.filter (fun h => keepCond h)).length + 2) := by
  have hall : ∀ s ∈ (filtered_data_rows headers dataRows).map trRow,
      s.data.count '<' =
        2 * (headers.filter (fun h => keepCond h)).length + 2 := by
    intro s hs
    obtain ⟨r, hr, rfl⟩ := List.mem_map.mp hs
    obtain ⟨r0, _, rfl⟩ := List.mem_map.mp hr
    rw [trRow_count_lt]
    have hlen : (row_for_indices (keep_indices headers) r0).length =
        (keep_indices headers).length := List.length_map _ _
    rw [hlen, keep_indices_length]
  rw [tbodyStr, joinSep_count '<' "\n" (by decide) _ _ hall]
  simp [filtered_data_rows, Nat.mul_comm]

/-- Claim C1: for a header with K non-blank columns and N data rows, the
filtered output has exactly K header cells and N body rows of K cells each,
whatever the raw row lengths; at the HTML level, the `thead` string contains
exactly 2K+2 tag openers and the `tbody` string exactly N*(2K+2). -/
theorem claim_c1 (headers : List String) (dataRows : List (List String)) :
    (filtered_headers headers).length =
      (headers.filter (fun h => keepCond h)).length ∧
    (filtered_data_rows headers dataRows).length = dataRows.length ∧
    (∀ r ∈ filtered_data_rows headers dataRows,
      r.length = (headers.filter (fun h => keepCond h)).length) ∧
    (theadStr headers).data.count '<' =
      2 * (headers.filter (fun h => keepCond h)).length + 2 ∧
    (tbodyStr headers dataRows).data.count '<' =
      dataRows.length *
        (2 * (headers.filter (fun h => keepCond h)).length + 2) := by
  refine ⟨?_, ?_, ?_, theadStr_count_lt headers,
    tbodyStr_count_lt headers dataRows⟩
  · rw [filtered_headers_eq_filter]
  · exact List.length_map _ _
  · intro r hr
    obtain ⟨r0, _, rfl⟩ := List.mem_map.mp hr
    simp only [row_for_indices, List.length_map]
    exact keep_indices_length headers

/-- Witness for C1 at a concrete input: the row `["x", "y"]` filtered by the
header `["a", " "]` is a member of the filtered rows and has exactly one cell
(the header keeps a single column). -/
theorem claim_c1_witness :
    row_for_indices (keep_indices ["a", " "]) ["x", "y"] ∈
      filtered_data_rows ["a", " "] [["x", "y"]] ∧
    (row_for_indices (keep_indices ["a", " "]) ["x", "y"]).length =
      ((["a", " "] : List String).filter (fun h => keepCond h)).length :=
  ⟨by decide,
   (claim_c1 ["a", " "] [["x", "y"]]).2.2.1 _ (by decide)⟩

theorem pyStrip_eq_empty_iff (s : String) :
    pyStrip s = "" ↔ ∀ c ∈ s.data, isPySpace c = true := by
  have hmk : pyStrip s = "" ↔
      ((s.data.dropWhile isPySpace).reverse.dropWhile isPySpace).reverse
        = [] := by
    constructor
    · intro h; exact congrArg String.data h
    · intro h; show String.mk _ = ""; rw [h]
  rw [hmk, List.reverse_eq_nil_iff, List.dropWhile_eq_nil_iff]
  constructor
  · intro h c hc
    rcases List.mem_append.mp
        (by rw [List.takeWhile_append_dropWhile]; exact hc :
          c ∈ s.data.takeWhile isPySpace ++ s.data.dropWhile isPySpace) with
      hm | hm
    · exact List.mem_takeWhile_imp hm
    · exact h c (List.mem_reverse.mpr hm)
  · intro h c hc
    exact h c ((List.dropWhile_sublist _).subset (List.mem_reverse.mp hc))

theorem keepCond_eq_any (h : String) :
    keepCond h = h.data.any (fun c => !(isPySpace c)) := by
  cases hany : h.data.any (fun c => !(isPySpace c)) with
  | false =>
      have hall : ∀ c ∈ h.data, isPySpace c = true := by
        intro c hc
        have hcc := List.any_eq_false.mp hany c hc
        simpa using hcc
      by_cases he : h = ""
      · subst he; decide
      · have h2 : pyStrip h = "" := (pyStrip_eq_empty_iff h).mpr hall
        simp [keepCond, h2]
  | true =>
      obtain ⟨c, hc, hcp⟩ := List.any_eq_true.mp hany
      have hcp2 : isPySpace c = false := by simpa using hcp
      have h1 : h ≠ "" := by
        intro he; subst he
        rw [show ("" : String).data = [] from rfl] at hc
        exact absurd hc (List.not_mem_nil c)
      have h2 : pyStrip h ≠ "" := by
        intro he
        have := (pyStrip_eq_empty_iff h).mp he c hc
        rw [this] at hcp2
        cases hcp2
      simp [keepCond, h1, h2]

/-- Claim C5: header filtering keeps exactly the headers containing at least
one non-whitespace character, verbatim: the kept header list is a plain
`filter` of the original header strings (trimming decides eligibility only,
the retained text is unchanged), and the eligibility test holds iff some
character of the header is not whitespace. -/
theorem claim_c5 (headers : List String) :
    filtered_headers headers = headers.filter (fun h => keepCond h) ∧
    ∀ h : String, keepCond h = h.data.any (fun c => !(isPySpace c)) :=
  ⟨filtered_headers_eq_filter headers, keepCond_eq_any⟩

/-- Claim C6: remapping a row to the kept indices yields one cell per kept
index, equal to `row[i]` when `i` is within the row and `""` otherwise; the
function is total, so no out-of-bounds error can occur. -/
theorem claim_c6 (keep : List Nat) (row : List String) :
    (row_for_indices keep row).length = keep.length ∧
    ∀ j, j < keep.length →
      (row_for_indices keep row).getD j "" =
        (if keep.getD j 0 < row.length
         then row.getD (keep.getD j 0) "" else "") := by
  constructor
  · simp [row_for_indices]
  · intro j hj
    have hj2 : keep[j]? = some keep[j] := List.getElem?_eq_getElem hj
    simp [row_for_indices, List.getD_eq_getElem?_getD, List.getElem?_map, hj2]

/-- Witness for C6 at index 1 of kept indices `[0, 2]` over the short row
`["Bob", "y"]`: the produced cell is the empty string. -/
theorem claim_c6_witness :
    1 < ([0, 2] : List Nat).length ∧
    (row_for_indices [0, 2] ["Bob", "y"]).getD 1 "" =
      (if ([0, 2] : List Nat).getD 1 0 < (["Bob", "y"] : List String).length
       then (["Bob", "y"] : List String).getD (([0, 2] : List Nat).getD 1 0) ""
       else "") :=
  ⟨by decide, (claim_c6 [0, 2] ["Bob", "y"]).2 1 (by decide)⟩

/-- Claim C3: on a CSV with zero rows, generation stops with the
`SystemExit` message `CSV is empty` (a non-zero exit), and the only filesystem
effect of the run is the parent-directory creation: no output file is
written. -/
theorem claim_c3 (u : String) :
    generate [] u = Except.error "CSV is empty" ∧
    mainEffects [] u = [FsEffect.mkdirParent] :=
  ⟨rfl, rfl⟩

theorem keepCond_eq_false (h : String) (hk : ¬ keepCond h = true) :
    keepCond h = false := by
  cases hkc : keepCond h
  · rfl
  · exact absurd hkc hk

theorem keepIndicesFrom_bound :
    ∀ (t : List String) (n i : Nat), i ∈ keepIndicesFrom n t → n ≤ i := by
  intro t
  induction t with
  | nil => intro n i hm; cases hm
  | cons h rest ih =>
      intro n i hm
      by_cases hk : keepCond h = true
      · simp only [keepIndicesFrom, if_pos hk, List.mem_cons] at hm
        rcases hm with rfl | hm
        · exact Nat.le_refl _
        · exact Nat.le_of_succ_le (ih (n + 1) i hm)
      · simp only [keepIndicesFrom, keepCond_eq_false h hk,
          Bool.false_eq_true, if_false] at hm
        exact Nat.le_of_succ_le (ih (n + 1) i hm)

theorem keepIndicesFrom_pairwise :
    ∀ (t : List String) (n : Nat),
      List.Pairwise (· < ·) (keepIndicesFrom n t) := by
  intro t
  induction t with
  | nil => intro n; exact List.Pairwise.nil
  | cons h rest ih =>
      intro n
      by_cases hk : keepCond h = true
      · simp only [keepIndicesFrom, if_pos hk]
        refine List.Pairwise.cons ?_ (ih (n + 1))
        intro j hj
        have := keepIndicesFrom_bound rest (n + 1) j hj
        omega
      · simp only [keepIndicesFrom, keepCond_eq_false h hk,
          Bool.false_eq_true, if_false]
        exact ih (n + 1)

theorem keepIndicesFrom_mem :
    ∀ (t : List String) (n i : Nat),
      i ∈ keepIndicesFrom n t ↔
        n ≤ i ∧ i - n < t.length ∧ keepCond (t.getD (i - n) "") = true := by
  intro t
  induction t with
  | nil =>
      intro n i
      simp [keepIndicesFrom]
  | cons h rest ih =>
      intro n i
      have hlen : (h :: rest).length = rest.length + 1 := rfl
      by_cases hk : keepCond h = true
      · simp only [keepIndicesFrom, if_pos hk, List.mem_cons]
        constructor
        · rintro (rfl | hm)
          · refine ⟨Nat.le_refl i, by simp, ?_⟩
            simpa [Nat.sub_self] using hk
          · obtain ⟨h1, h2, h3⟩ := (ih (n + 1) i).mp hm
            refine ⟨by omega, by rw [hlen]; omega, ?_⟩
            have he : i - n = (i - (n + 1)) + 1 := by omega
            rw [he, List.getD_cons_succ]
            exact h3
        · rintro ⟨h1, h2, h3⟩
          by_cases hin : i = n
          · exact Or.inl hin
          · refine Or.inr ((ih (n + 1) i).mpr ⟨by omega, ?_, ?_⟩)
            · rw [hlen] at h2; omega
            · have he : i - n = (i - (n + 1)) + 1 := by omega
              rw [he, List.getD_cons_succ] at h3
              exact h3
      · simp only [keepIndicesFrom, keepCond_eq_false h hk,
          Bool.false_eq_true, if_false]
        rw [ih (n + 1) i]
        constructor
        · rintro ⟨h1, h2, h3⟩
          refine ⟨by omega, by rw [hlen]; omega, ?_⟩
          have he : i - n = (i - (n + 1)) + 1 := by omega
          rw [he, List.getD_cons_succ]
          exact h3
        · rintro ⟨h1, h2, h3⟩
          have hin : i ≠ n := by
            intro he
            subst he
            rw [Nat.sub_self, List.getD_cons_zero] at h3
            exact hk h3
          refine ⟨by omega, ?_, ?_⟩
          · rw [hlen] at h2; omega
          · have he : i - n = (i - (n + 1)) + 1 := by omega
            rw [he, List.getD_cons_succ] at h3
            exact h3

/-- Claim C8: the kept index set is computed once from the header, is strictly
increasing (original left-to-right order preserved), contains exactly the
indices whose header cell passes the non-blank test, and every data row is
remapped with exactly this set. -/
theorem claim_c8 (headers : List String) :
    List.Pairwise (· < ·) (keep_indices headers) ∧
    (∀ i, i ∈ keep_indices headers ↔
      i < headers.length ∧ keepCond (headers.getD i "") = true) ∧
    ∀ dataRows : List (List String),
      filtered_data_rows headers dataRows =
        dataRows.map (row_for_indices (keep_indices headers)) := by
  refine ⟨keepIndicesFrom_pairwise headers 0, ?_, fun _ => rfl⟩
  intro i
  have hm := keepIndicesFrom_mem headers 0 i
  simpa using hm

theorem keepIndicesFrom_eq_nil (t : List String)
    (hall : ∀ h ∈ t, keepCond h = false) :
    ∀ n, keepIndicesFrom n t = [] := by
  induction t with
  | nil => intro n; rfl
  | cons h rest ih =>
      intro n
      have hk := hall h (by simp)
      simp only [keepIndicesFrom, hk, Bool.false_eq_true, if_false]
      exact ih (fun u hu => hall u (by simp [hu])) (n + 1)

/-- Claim C4: when every header cell is empty or whitespace-only, generation
stops with the `SystemExit` message `No non-empty header columns found in CSV`
(a non-zero exit) before rendering, and the only filesystem effect of the
run is the parent-directory creation: no output file is written. -/
theorem claim_c4 (headers : List String) (rest : List (List String))
    (u : String) (hall : ∀ h ∈ headers, h.data.all isPySpace = true) :
    generate (headers :: rest) u =
      Except.error "No non-empty header columns found in CSV" ∧
    mainEffects (headers :: rest) u = [FsEffect.mkdirParent] := by
  have hall2 : ∀ h ∈ headers, keepCond h = false := by
    intro h hh
    have h1 := hall h hh
    rw [keepCond_eq_any h, List.any_eq_false]
    intro c hc
    have h2 := List.all_eq_true.mp h1 c hc
    simp [h2]
  have hnil : keep_indices headers = [] :=
    keepIndicesFrom_eq_nil headers hall2 0
  refine ⟨?_, ?_⟩
  · simp [generate, hnil]
  · simp [mainEffects, generate, hnil]

/-- Witness for C4: the header row `[" ", "\u00a0", ""]` — an ASCII space, a
no-break space (stripped by `str.strip()` though not ASCII), and an empty cell
— is all-blank, so the run with one data row errors out and writes nothing. -/
theorem claim_c4_witness :
    (∀ h ∈ ([" ", "\u00a0", ""] : List String), h.data.all isPySpace = true) ∧
    (generate ([" ", "\u00a0", ""] :: [["a"]]) "t" =
      Except.error "No non-empty header columns found in CSV" ∧
    mainEffects ([" ", "\u00a0", ""] :: [["a"]]) "t" = [FsEffect.mkdirParent]) :=
  ⟨by decide, claim_c4 [" ", "\u00a0", ""] [["a"]] "t" (by decide)⟩

/-- Claim C7: for a fixed parsed CSV, the output page is a constant template
prefix, then the timestamp, then a suffix that depends only on the CSV rows;
so two runs on identical input agree on every byte outside the spliced
timestamp, which sits on the `Last updated (UTC): ` line. -/
theorem claim_c7 (headers : List String) (dataRows : List (List String)) :
    (∀ w : String, page headers dataRows w =
      pagePart0 ++ w ++
        (pagePart1 ++ theadStr headers ++ pagePart2 ++
          tbodyStr headers dataRows ++ pagePart3)) ∧
    pagePart0 = pagePart0head ++ "Last updated (UTC): " :=
  ⟨fun _ => rfl, rfl⟩

/-- Claim C9: end-to-end on the CSV `Name,,Age\nAlice,x,30\nBob,y,` — the
blank header at index 1 is dropped, the kept indices are `[0, 2]`, the output
header cells are `Name` and `Age`, and the body rows are `Alice | 30` and
`Bob | ` (empty trailing cell). -/
theorem claim_c9 :
    parseSimpleCsv "Name,,Age\nAlice,x,30\nBob,y," =
      [["Name", "", "Age"], ["Alice", "x", "30"], ["Bob", "y", ""]] ∧
    keep_indices ["Name", "", "Age"] = [0, 2] ∧
    filtered_headers ["Name", "", "Age"] = ["Name", "Age"] ∧
    filtered_data_rows ["Name", "", "Age"]
        [["Alice", "x", "30"], ["Bob", "y", ""]] =
      [["Alice", "30"], ["Bob", ""]] ∧
    theadStr ["Name", "", "Age"] = "<tr><th>Name</th><th>Age</th></tr>" ∧
    tbodyStr ["Name", "", "Age"] [["Alice", "x", "30"], ["Bob", "y", ""]] =
      "<tr><td>Alice</td><td>30</td></tr>\n<tr><td>Bob</td><td></td></tr>" := by
  refine ⟨by decide, by decide, by decide, by decide, by decide, by decide⟩

/-- Claim C10: the parent directory of the output path is created first, even
on runs that abort with the empty-CSV or no-usable-columns error; the output
file itself is written only when generation succeeds. -/
theorem claim_c10 (rows : List (List String)) (u : String) :
    (mainEffects rows u).head? = some FsEffect.mkdirParent ∧
    (∀ e, generate rows u = Except.error e →
      mainEffects rows u = [FsEffect.mkdirParent]) ∧
    (∀ p, generate rows u = Except.ok p →
      mainEffects rows u = [FsEffect.mkdirParent, FsEffect.write p]) := by
  refine ⟨rfl, ?_, ?_⟩
  · intro e he
    simp [mainEffects, he]
  · intro p hp
    simp [mainEffects, hp]

/-- Witness for C10 on the empty CSV: the directory-creation effect happens
and is the only effect of the run. -/
theorem claim_c10_witness :
    generate [] "t" = Except.error "CSV is empty" ∧
    mainEffects [] "t" = [FsEffect.mkdirParent] ∧
    (mainEffects [] "t").head? = some FsEffect.mkdirParent :=
  ⟨rfl, (claim_c10 [] "t").2.1 "CSV is empty" rfl, (claim_c10 [] "t").1⟩
